import Mathlib

/-!
Shallow embedding of the core text-heuristic functions of the pdf-summarizer
repository (`summarizer.py`, `batch_processor.py`, `api.py`, `config.py`).

Strings are modelled as `List Char`. Python string primitives (`strip`,
`split`, substring `in`, `lower`, `endswith`) and the regular-expression
tests actually used by the code are given explicit executable definitions.
The two external ML collaborators (the KeyBERT phrase extractor and the
BART summarization pipeline) are modelled as function parameters / as the
argument tuple the code passes to them.
-/

/-- Strings of the modelled program, as explicit character lists. -/
abbrev Str := List Char

/-- Convenience conversion from a Lean string literal to `Str`. -/
def chars (s : String) : Str := s.toList

/-- Python `str.isspace` characters relevant to `strip`/`split`
(ASCII whitespace, as used by the modelled code). -/
def isPySpace (c : Char) : Bool :=
  c == ' ' || c == '\t' || c == '\n' || c == '\r' || c == '\x0b' || c == '\x0c'

/-- Python `str.strip()`: drop leading and trailing whitespace. -/
def pyStrip (s : Str) : Str :=
  ((s.dropWhile isPySpace).reverse.dropWhile isPySpace).reverse

/-- Helper for `pySplit`: accumulates the current word (reversed). -/
def pySplitAux : Str → Str → List Str
  | [], acc => if acc.isEmpty then [] else [acc.reverse]
  | c :: rest, acc =>
    if isPySpace c then
      if acc.isEmpty then pySplitAux rest [] else acc.reverse :: pySplitAux rest []
    else pySplitAux rest (c :: acc)

/-- Python `str.split()` with no separator: split on whitespace runs,
discarding empty tokens. -/
def pySplit (s : Str) : List Str := pySplitAux s []

/-- Helper for `pySplitChar`: accumulates the current segment (reversed). -/
def pySplitCharAux (sep : Char) : Str → Str → List Str
  | [], acc => [acc.reverse]
  | c :: rest, acc =>
    if c == sep then acc.reverse :: pySplitCharAux sep rest []
    else pySplitCharAux sep rest (c :: acc)

/-- Python `str.split(sep)` for a one-character separator: keeps empty
segments, and `"".split(sep) == [""]`. -/
def pySplitChar (sep : Char) (s : Str) : List Str := pySplitCharAux sep s []

/-- Prefix test used to implement substring search. -/
def hasPre : Str → Str → Bool
  | [], _ => true
  | _ :: _, [] => false
  | a :: as, b :: bs => a == b && hasPre as bs

/-- Python substring containment `needle in hay`. -/
def pyContains (n : Str) : Str → Bool
  | [] => n.isEmpty
  | c :: rest => hasPre n (c :: rest) || pyContains n rest

/-- Python `str.lower()` restricted to ASCII letters, as `Char.toLower`
(the modelled patterns are ASCII). -/
def lowerStr (s : Str) : Str := s.map Char.toLower

/-- Python `str.join` with a single-space separator: `" ".join(xs)`. -/
def joinSpaces : List Str → Str
  | [] => []
  | [x] => x
  | x :: y :: rest => x ++ ' ' :: joinSpaces (y :: rest)

/-- Regex word character `\w` (ASCII fragment): letter, digit or underscore. -/
def isWordChar (c : Char) : Bool := c.isAlphanum || c == '_'

/-- Word-ness of an optional character; the absent character (string edge)
counts as a non-word character for `\b`. -/
def wordness : Option Char → Bool
  | none => false
  | some c => isWordChar c

/-- Does pattern `w` occur at the head of `s` with a `\b` word boundary on
both sides, where `prev` is the character just before this position? -/
def boundedAt (w s : Str) (prev : Option Char) : Bool :=
  hasPre w s && (wordness prev != wordness w.head?)
    && (wordness w.getLast? != wordness ((s.drop w.length).head?))

/-- Scan of `s` for a `\b w \b` occurrence, tracking the previous character. -/
def containsBoundedAux (w : Str) : Option Char → Str → Bool
  | _, [] => false
  | prev, c :: rest => boundedAt w (c :: rest) prev || containsBoundedAux w (some c) rest

/-- Python `re.search(r'\b w \b', s)` for a literal (non-empty) pattern `w`. -/
def containsWordB (w s : Str) : Bool := containsBoundedAux w none s

/-- Does `s` consist exactly of `[` then one or more digits then `]`
(the regex `^\[\d+\]$` without the trailing-newline allowance)? -/
def exactCitation (s : Str) : Bool :=
  match s with
  | '[' :: rest =>
    !rest.dropLast.isEmpty && rest.dropLast.all Char.isDigit && rest.getLast? == some ']'
  | _ => false

/-- Does `s` consist exactly of one ASCII letter (regex `^[a-zA-Z]$`
without the trailing-newline allowance)? -/
def exactLetter (s : Str) : Bool :=
  match s with
  | [c] => c.isAlpha
  | _ => false

/-- Drop one trailing newline, modelling that regex `$` also matches just
before a final newline. -/
def dropTrailingNL (s : Str) : Str :=
  if s.getLast? == some '\n' then s.dropLast else s

/-- Python `re.search(r'^\[\d+\]$|^[a-zA-Z]$', s)`: the skip test for
citation markers and stray single letters in the font-based title strategy. -/
def reCitOrLetter (s : Str) : Bool :=
  exactCitation s || exactCitation (dropTrailingNL s)
    || exactLetter s || exactLetter (dropTrailingNL s)

/-- Python `re.search(r'\d+\s*$', s)`: since `\s` absorbs a final newline,
this holds exactly when `s` minus trailing whitespace ends with a digit. -/
def reDigitsEnd (s : Str) : Bool :=
  match ((s.reverse.dropWhile isPySpace).reverse).getLast? with
  | some c => c.isDigit
  | none => false

/-- Python `re.search(r'^\d\s', s)`: a digit then a whitespace at the very
start of the string. -/
def reDigitSpaceStart (s : Str) : Bool :=
  match s with
  | c1 :: c2 :: _ => c1.isDigit && isPySpace c2
  | _ => false

/-- Python `re.search(r'\[\d+\]', s)`: an unanchored bracketed digit run. -/
def containsBracketNum : Str → Bool
  | [] => false
  | '[' :: rest =>
    (!(rest.takeWhile Char.isDigit).isEmpty
      && (rest.drop (rest.takeWhile Char.isDigit).length).head? == some ']')
      || containsBracketNum rest
  | _ :: rest => containsBracketNum rest

/-- Python `re.search(r'\d{4}', s)`: four consecutive digits anywhere. -/
def containsFourDigits : Str → Bool
  | a :: b :: c :: d :: rest =>
    (a.isDigit && b.isDigit && c.isDigit && d.isDigit)
      || containsFourDigits (b :: c :: d :: rest)
  | _ => false

/-!  Text Normalizer / Title Cleaner: `clean_text` of `summarizer.py`. -/

/-- First pass of `clean_text`: Python `text.replace("-\n", "")`, a
left-to-right non-overlapping scan. -/
def replaceHyphenNL : Str → Str
  | [] => []
  | [c] => [c]
  | c1 :: c2 :: rest =>
    if c1 = '-' ∧ c2 = '\n' then replaceHyphenNL rest
    else c1 :: replaceHyphenNL (c2 :: rest)

/-- Second pass of `clean_text`: Python `text.replace("\n", " ")`. -/
def replaceNLSpace : Str → Str
  | [] => []
  | c :: rest => (if c = '\n' then ' ' else c) :: replaceNLSpace rest

/-- `clean_text` of `summarizer.py` lines 301-304: undo hyphenation breaks,
then turn remaining line breaks into spaces. -/
def clean_text (s : Str) : Str := replaceNLSpace (replaceHyphenNL s)

/-!  Title Inference Engine: `improved_extract_title` and its helpers. -/

/-- One (text, fontSize) pair of the FontSpanSequence extracted from a
PDF's first page. Font sizes are modelled as exact rationals. -/
structure FontSpan where
  text : Str
  size : ℚ
deriving DecidableEq

/-- Python `max` over a non-empty list (the `[]` case is never reached by
the modelled code). -/
def listMax : List ℚ → ℚ
  | [] => 0
  | s :: rest => rest.foldl max s

/-- The affiliation/contact test of the font-based title strategy:
`re.search(r'\b(department|university|institute|email|@)\b', text.lower())`. -/
def affilMarker (t : Str) : Bool :=
  containsWordB (chars ("department")) (lowerStr t)
    || containsWordB (chars ("university")) (lowerStr t)
    || containsWordB (chars ("institute")) (lowerStr t)
    || containsWordB (chars ("email")) (lowerStr t)
    || containsWordB (chars ("@")) (lowerStr t)

/-- The span-collection loop of `extract_title_from_font_info`
(`summarizer.py` lines 70-88), walking the first spans in order. -/
def collectFontTitle (maxFont threshold : ℚ) : List FontSpan → List Str → List Str
  | [], acc => acc
  | sp :: rest, acc =>
    if (sp.text.length ≤ 1 ∨ sp.text.length < 4) ∧ sp.size < maxFont then
      collectFontTitle maxFont threshold rest acc
    else if reCitOrLetter sp.text then
      collectFontTitle maxFont threshold rest acc
    else if threshold ≤ sp.size then
      if affilMarker sp.text then collectFontTitle maxFont threshold rest acc
      else collectFontTitle maxFont threshold rest (acc ++ [sp.text])
    else if acc ≠ [] then acc
    else collectFontTitle maxFont threshold rest acc

/-- The list of span texts collected by the font-based title strategy:
first 10 spans, threshold 0.8 times the largest font among them. -/
def fontTitleElements (tw : List FontSpan) : List Str :=
  collectFontTitle (listMax ((tw.take 10).map FontSpan.size))
    (listMax ((tw.take 10).map FontSpan.size) * (4/5)) (tw.take 10) []

/-- `extract_title_from_font_info` of `summarizer.py` lines 49-93: join the
collected spans with spaces, `none` when nothing was collected. -/
def extract_title_from_font_info (tw : List FontSpan) : Option Str :=
  match tw with
  | [] => none
  | _ :: _ =>
    if fontTitleElements tw ≠ [] then some (joinSpaces (fontTitleElements tw)) else none

/-- The header/footer noise filter of the line-based title strategy:
`re.search(r'(page|doi|ÂĐ|http|www|\d+\s*$)', line.lower())`. The third
alternative is the two-character sequence `ÂĐ` literally present in the
source file. -/
def contentNoise (line : Str) : Bool :=
  pyContains (chars ("page")) (lowerStr line)
    || pyContains (chars ("doi")) (lowerStr line)
    || pyContains (chars ("ÂĐ")) (lowerStr line)
    || pyContains (chars ("http")) (lowerStr line)
    || pyContains (chars ("www")) (lowerStr line)
    || reDigitsEnd (lowerStr line)

/-- The filtered content lines of `improved_extract_title` lines 220-227:
strip the text, split on newlines, keep stripped non-empty lines that do
not match the noise filter. -/
def contentLines (text : Str) : List Str :=
  (pySplitChar '\n' (pyStrip text)).filterMap (fun l =>
    if pyStrip l ≠ [] ∧ ¬ contentNoise (pyStrip l) = true then some (pyStrip l) else none)

/-- The `end_markers` test of `improved_extract_title` lines 233-244 and
255, applied to the lowered line. -/
def titleEndMarker (line : Str) : Bool :=
  containsWordB (chars ("abstract")) (lowerStr line)
    || containsWordB (chars ("introduction")) (lowerStr line)
    || containsWordB (chars ("university")) (lowerStr line)
    || containsWordB (chars ("institute")) (lowerStr line)
    || containsWordB (chars ("college")) (lowerStr line)
    || containsWordB (chars ("school")) (lowerStr line)
    || containsWordB (chars ("department")) (lowerStr line)
    || (lowerStr line).contains '@'
    || containsWordB (chars ("email")) (lowerStr line)
    || reDigitSpaceStart (lowerStr line)
    || containsBracketNum (lowerStr line)
    || containsFourDigits (lowerStr line)
    || containsWordB (chars ("submitted")) (lowerStr line)
    || containsWordB (chars ("received")) (lowerStr line)
    || containsWordB (chars ("accepted")) (lowerStr line)
    || containsWordB (chars ("published")) (lowerStr line)

/-- The author-line heuristic of `improved_extract_title` line 259: short
line with a comma or at most 3 whitespace tokens. -/
def looksAuthor (line : Str) : Bool :=
  decide (line.length < 30) && (line.contains ',' || decide ((pySplit line).length ≤ 3))

/-- Lines 262-266: the collected-so-far title lines contain no unfinished
fragment, i.e. no previous line that is short and does not end in `.`. -/
def fragmentFree (acc : List Str) : Bool :=
  acc.all (fun prev => !(decide (prev.length < 50) && !(prev.getLast? == some '.')))

/-- The title-line collection loop of `improved_extract_title` lines
247-272 over (up to) the first 5 content lines, with running index `i`. -/
def collectTitleLines : List Str → Nat → List Str → List Str
  | [], _, acc => acc
  | line :: rest, i, acc =>
    if line.length < 3 ∧ i > 0 then collectTitleLines rest (i + 1) acc
    else if titleEndMarker line then acc
    else if i > 0 ∧ looksAuthor line = true ∧ fragmentFree acc = true then acc
    else if line.length < 200 then collectTitleLines rest (i + 1) (acc ++ [line])
    else collectTitleLines rest (i + 1) acc

/-- The title lines collected by the line-based strategy (strategy 2). -/
def lineTitleLines (text : Str) : List Str :=
  collectTitleLines ((contentLines text).take 5) 0 []

/-- The final fallback of `improved_extract_title` lines 293-298: the first
of the first 3 content lines with length strictly between 15 and 200,
else the sentinel. -/
def finalFallback (cls : List Str) : Str :=
  match (cls.take 3).find? (fun l => decide (15 < l.length) && decide (l.length < 200)) with
  | some l => l
  | none => chars ("Unknown Title")

/-- Strategy 1 wrapper of `improved_extract_title` lines 210-217: the
font-based title, accepted only when longer than 10 characters
(`if font_based_title and len(font_based_title) > 10`). `none` models an
absent `pdf_path`. -/
def fontStrategyResult : Option (List FontSpan) → Option Str
  | none => none
  | some fi =>
    match extract_title_from_font_info fi with
    | some t => if t.length > 10 then some t else none
    | none => none

/-- `improved_extract_title` of `summarizer.py` lines 205-298. The KeyBERT
collaborator (strategy 3, lines 279-291) is the parameter `kb`; it receives
the first 15 content lines joined with spaces and returns the top phrase,
`none` modelling an empty keyword list or a caught exception. -/
def improved_extract_title (text : Str) (fontInfo : Option (List FontSpan))
    (kb : Str → Option Str) : Str :=
  match fontStrategyResult fontInfo with
  | some t => t
  | none =>
    if lineTitleLines text ≠ [] then joinSpaces (lineTitleLines text)
    else
      match kb (joinSpaces ((contentLines text).take 15)) with
      | some phrase => phrase
      | none => finalFallback (contentLines text)

/-!  Author Inference Engine: `extract_authors` and its helpers. -/

/-- The abstract/header test used by all author strategies:
`re.search(r'\b(abstract|introduction|keywords)\b', t.lower())`. -/
def absIntroKw (t : Str) : Bool :=
  containsWordB (chars ("abstract")) (lowerStr t)
    || containsWordB (chars ("introduction")) (lowerStr t)
    || containsWordB (chars ("keywords")) (lowerStr t)

/-- The institution test of author strategies 1 and 2:
`re.search(r'\b(university|department|institute|school)\b', t.lower())`. -/
def instMarker (t : Str) : Bool :=
  containsWordB (chars ("university")) (lowerStr t)
    || containsWordB (chars ("department")) (lowerStr t)
    || containsWordB (chars ("institute")) (lowerStr t)
    || containsWordB (chars ("school")) (lowerStr t)

/-- Inclusion test of the font-based author strategy (`summarizer.py` line
127-128): comma, `" and "` in the lowered text, or at most 4 tokens with
length over 3. -/
def authIncl1 (t : Str) : Bool :=
  t.contains ',' || pyContains (chars (" and ")) (lowerStr t)
    || (decide ((pySplit t).length ≤ 4) && decide (t.length > 3))

/-- The span scan of author strategy 1 (`summarizer.py` lines 119-133):
break before including on an abstract marker, include on the inclusion
test, break after including on an institution marker. -/
def collectFontAuthors : List FontSpan → List Str → List Str
  | [], acc => acc
  | sp :: rest, acc =>
    if absIntroKw sp.text then acc
    else if authIncl1 sp.text then
      if instMarker sp.text then acc ++ [sp.text]
      else collectFontAuthors rest (acc ++ [sp.text])
    else
      if instMarker sp.text then acc
      else collectFontAuthors rest acc

/-- Author strategy 1 (font-based positional, `summarizer.py` lines
100-136): locate the span containing one of the title's last two words,
then scan up to the next 9 spans. -/
def authStrat1 (fi : List FontSpan) (title : Str) : Option Str :=
  match fi.findIdx? (fun sp =>
      ((pySplit title).drop ((pySplit title).length - 2)).any
        (fun w => pyContains w sp.text)) with
  | some i =>
    if i + 1 < fi.length then
      match collectFontAuthors ((fi.drop (i + 1)).take 9) [] with
      | [] => none
      | cands => some (joinSpaces cands)
    else none
  | none => none

/-- Inclusion test of the line-based author strategy (`summarizer.py`
lines 166-167): comma, `" and "`, or at most 6 tokens with length strictly
between 3 and 100. -/
def authIncl2 (line : Str) : Bool :=
  line.contains ',' || pyContains (chars (" and ")) (lowerStr line)
    || (decide ((pySplit line).length ≤ 6) && decide (line.length > 3)
        && decide (line.length < 100))

/-- The first three words of the title longer than 3 characters, used to
locate the title line (`summarizer.py` line 154). -/
def titleW3 (t : Str) : List Str :=
  ((pySplit t).filter (fun w => decide (w.length > 3))).take 3

/-- The line scan of author strategy 2 (`summarizer.py` lines 146-177):
skip lines until one contains a significant title word, then collect
candidate lines; break before including on an abstract marker, break after
the inclusion test on an institution marker or a line over 100 characters,
and stop once 3 candidates are collected. -/
def authStrat2Loop (tw3 : List Str) : List Str → Bool → List Str → List Str
  | [], _, acc => acc
  | l :: rest, found, acc =>
    if (pyStrip l).isEmpty then authStrat2Loop tw3 rest found acc
    else if !found then
      authStrat2Loop tw3 rest (tw3.any (fun w => pyContains w (pyStrip l))) acc
    else if absIntroKw (pyStrip l) then acc
    else if authIncl2 (pyStrip l) then
      if instMarker (pyStrip l) || decide ((pyStrip l).length > 100) then acc ++ [pyStrip l]
      else if (acc ++ [pyStrip l]).length ≥ 3 then acc ++ [pyStrip l]
      else authStrat2Loop tw3 rest found (acc ++ [pyStrip l])
    else
      if instMarker (pyStrip l) || decide ((pyStrip l).length > 100) then acc
      else if acc.length ≥ 3 then acc
      else authStrat2Loop tw3 rest found acc

/-- The post-collection noise filter of author strategy 2 (`summarizer.py`
lines 181-187): `re.search(r'\b(http|www|doi|ÂĐ|journal|received|accepted|published)\b', ...)`.
The fourth alternative is the two-character sequence `ÂĐ` literally present
in the source file. -/
def authNoise (c : Str) : Bool :=
  containsWordB (chars ("http")) (lowerStr c)
    || containsWordB (chars ("www")) (lowerStr c)
    || containsWordB (chars ("doi")) (lowerStr c)
    || containsWordB (chars ("ÂĐ")) (lowerStr c)
    || containsWordB (chars ("journal")) (lowerStr c)
    || containsWordB (chars ("received")) (lowerStr c)
    || containsWordB (chars ("accepted")) (lowerStr c)
    || containsWordB (chars ("published")) (lowerStr c)

/-- Author strategy 2 (line-based positional, `summarizer.py` lines
141-190): collect candidates after the title line, filter noise lines,
join the survivors with spaces. -/
def authStrat2 (text t : Str) : Option Str :=
  match authStrat2Loop (titleW3 t) (pySplitChar '\n' (pyStrip text)) false [] with
  | [] => none
  | cands =>
    match cands.filter (fun c => !authNoise c) with
    | [] => none
    | filtered => some (joinSpaces filtered)

/-- The marker test of author strategy 3 (`summarizer.py` line 198):
`re.search(r'\b(abstract|introduction|http|www)\b', line.lower())`. -/
def strat3Marker (line : Str) : Bool :=
  containsWordB (chars ("abstract")) (lowerStr line)
    || containsWordB (chars ("introduction")) (lowerStr line)
    || containsWordB (chars ("http")) (lowerStr line)
    || containsWordB (chars ("www")) (lowerStr line)

/-- The line scan of author strategy 3: first line (among the first 10)
with both a comma and `" and "`, no marker, and length under 150. -/
def authStrat3Loop : List Str → Str
  | [] => chars ("Authors not found")
  | l :: rest =>
    if (pyStrip l).contains ',' && pyContains (chars (" and ")) (lowerStr (pyStrip l))
        && !strat3Marker (pyStrip l) && decide ((pyStrip l).length < 150) then pyStrip l
    else authStrat3Loop rest

/-- Author strategy 3 (pattern-only fallback, `summarizer.py` lines
193-200), ending in the sentinel `"Authors not found"` (line 202). -/
def authStrat3 (text : Str) : Str :=
  authStrat3Loop ((pySplitChar '\n' (pyStrip text)).take 10)

/-- `extract_authors` of `summarizer.py` lines 96-202. `title` is the
optional inferred title (`none` or the empty string are falsy); `fontInfo`
is the FontSpanSequence when a `pdf_path` was given (`none` models an
absent path). -/
def extract_authors (text : Str) (title : Option Str)
    (fontInfo : Option (List FontSpan)) : Str :=
  match
    (match fontInfo, title with
     | some fi, some t => if t ≠ [] then authStrat1 fi t else none
     | _, _ => none) with
  | some r => r
  | none =>
    match
      (match title with
       | some t => if t ≠ [] then authStrat2 text t else none
       | none => none) with
    | some r => r
    | none => authStrat3 text

/-!  Statistics Calculator (`batch_processor.py` lines 82-95, `api.py`
lines 79-84) and the summarization call (`summarizer.py` lines 314-321,
`config.py` lines 5-13). -/

/-- The statistics record computed by `BatchProcessor._calculate_statistics`;
the averaged fields are exact rationals modelling Python float division. -/
structure DocStats where
  character_count : Nat
  word_count : Nat
  sentence_count : Nat
  average_word_length : ℚ
  average_sentence_length : ℚ
  summary_length : Nat
  compressionRatio : ℚ
deriving DecidableEq

/-- `BatchProcessor._calculate_statistics` of `batch_processor.py` lines
82-95: words split on whitespace, sentences split on `'.'`, guarded
divisions. -/
def calculate_statistics (text summary : Str) : DocStats :=
  { character_count := text.length
    word_count := (pySplit text).length
    sentence_count := (pySplitChar '.' text).length
    average_word_length :=
      if pySplit text ≠ [] then
        (((pySplit text).map List.length).sum : ℚ) / ((pySplit text).length : ℚ)
      else 0
    average_sentence_length :=
      if pySplitChar '.' text ≠ [] then
        ((pySplit text).length : ℚ) / ((pySplitChar '.' text).length : ℚ)
      else 0
    summary_length := summary.length
    compressionRatio :=
      if text ≠ [] then (summary.length : ℚ) / (text.length : ℚ) else 0 }

/-- The sentence count computed inline by `process_single_pdf` of `api.py`
line 82: `len(text.split('.'))`. -/
def api_sentence_count (text : Str) : Nat := (pySplitChar '.' text).length

/-- `summary_max_length` of `MODEL_CONFIG` in `config.py`. -/
def MODEL_CONFIG_summary_max_length : Nat := 100

/-- `summary_min_length` of `MODEL_CONFIG` in `config.py`. -/
def MODEL_CONFIG_summary_min_length : Nat := 30

/-- The argument tuple `summarize` passes to the summarization pipeline. -/
structure SummarizeCall where
  inputText : Str
  maxLength : Nat
  minLength : Nat
deriving DecidableEq

/-- `summarize` of `summarizer.py` lines 314-321, up to the collaborator
call: truncate the input to 1024 whitespace tokens, then call the pipeline
with the literal bounds `max_length=100, min_length=30`. -/
def summarize_call (text : Str) : SummarizeCall :=
  { inputText :=
      if (pySplit text).length > 1024 then joinSpaces ((pySplit text).take 1024) else text
    maxLength := 100
    minLength := 30 }

/-!  Theorems. -/

theorem replaceNLSpace_no_nl (s : Str) : '\n' ∉ replaceNLSpace s := by
  induction s with
  | nil => simp [replaceNLSpace]
  | cons c rest ih =>
    simp only [replaceNLSpace, List.mem_cons]
    rintro (h | h)
    · split at h
      · exact absurd h.symm (by decide)
      · exact absurd h.symm (by assumption)
    · exact ih h

theorem replaceHyphenNL_of_no_nl (s : Str) (h : '\n' ∉ s) : replaceHyphenNL s = s := by
  induction s with
  | nil => rfl
  | cons c1 t ih =>
    cases t with
    | nil => rfl
    | cons c2 rest =>
      have hc2 : c2 ≠ '\n' := by
        intro hh
        exact h (by simp [hh])
      rw [replaceHyphenNL, if_neg (by rintro ⟨h1, h2⟩; exact hc2 h2)]
      have ht : '\n' ∉ c2 :: rest := by
        intro hm
        exact h (List.mem_cons_of_mem _ hm)
      rw [ih ht]

theorem replaceNLSpace_of_no_nl (s : Str) (h : '\n' ∉ s) : replaceNLSpace s = s := by
  induction s with
  | nil => rfl
  | cons c rest ih =>
    have hc : c ≠ '\n' := by
      intro hh
      exact h (by simp [hh])
    rw [replaceNLSpace, if_neg hc, ih (fun hm => h (List.mem_cons_of_mem _ hm))]

theorem clean_text_no_nl (s : Str) : '\n' ∉ clean_text s :=
  replaceNLSpace_no_nl _

/-- C6: the title/text cleaning transform `clean_text` is idempotent:
applying it twice yields the same result as applying it once. -/
theorem clean_text_idempotent (s : Str) : clean_text (clean_text s) = clean_text s := by
  have h := clean_text_no_nl s
  show clean_text (clean_text s) = clean_text s
  rw [clean_text, replaceHyphenNL_of_no_nl _ h, replaceNLSpace_of_no_nl _ h]

/-!  Concrete scenario inputs used by the claim theorems. -/

/-- RawText of the spec's line-based title scenario. -/
def c1Text : Str := chars ("Deep Learning for X\nAlice Smith, Bob Jones\nAbstract: ...")

/-- A 20-word input for the adaptive-summary-length scenario. -/
def c2Text : Str :=
  chars ("one two three four five six seven eight nine ten eleven twelve thirteen fourteen fifteen sixteen seventeen eighteen nineteen twenty")

/-- RawText whose only collected title line joins to a string of length 9. -/
def c3Text : Str := chars ("Short one\nAbstract")

/-- RawText whose first three content lines are short while the fourth is
substantial. -/
def c4Text : Str := chars ("Abstract\nab\ncd\nThis line is long enough to qualify here")

/-- The fourth content line of `c4Text`. -/
def c4LongLine : Str := chars ("This line is long enough to qualify here")

/-- Title used in the long-author-line scenario. -/
def c5Title : Str := chars ("Some Title Here")

/-- A 103-character line containing a comma. -/
def c5Line : Str := chars ("A, ") ++ List.replicate 100 'x'

/-- RawText: the title line followed by the 103-character comma line. -/
def c5Text : Str := c5Title ++ '\n' :: c5Line

theorem pySplitCharAux_ne_nil (sep : Char) :
    ∀ (s acc : Str), pySplitCharAux sep s acc ≠ [] := by
  intro s
  induction s with
  | nil => intro acc; simp [pySplitCharAux]
  | cons c rest ih =>
    intro acc
    rw [pySplitCharAux]
    split
    · exact List.cons_ne_nil _ _
    · exact ih _

/-- C2 (amended claim): `summarize` always calls the summarization
collaborator with the fixed configured bounds `max_length=100` and
`min_length=30`; no adaptive computation from the input word count takes
place. -/
theorem summarize_call_uses_fixed_configured_bounds (text : Str) :
    (summarize_call text).maxLength = MODEL_CONFIG_summary_max_length ∧
    (summarize_call text).minLength = MODEL_CONFIG_summary_min_length :=
  ⟨rfl, rfl⟩

/-- C2 (counterexample): for a 20-word input the summarization collaborator
is called with `max_length=100, min_length=30`, not with the adaptively
computed `(10, 5)` the claim asserts. -/
theorem summarize_call_twenty_words_not_adaptive :
    (pySplit c2Text).length = 20 ∧
    (summarize_call c2Text).maxLength = 100 ∧
    (summarize_call c2Text).minLength = 30 ∧
    ¬((summarize_call c2Text).maxLength = 10 ∧ (summarize_call c2Text).minLength = 5) := by
  exact ⟨by decide, rfl, rfl, by decide⟩

/-- C8: the Statistics Calculator returns `compressionRatio == 0` exactly
when the raw text is empty and `len(summary)/len(rawText)` otherwise, and
returns `averageWordLength == 0` exactly when the raw text has no
whitespace-delimited tokens and the mean token length otherwise. -/
theorem calculate_statistics_guarded_divisions (text summary : Str) :
    (text = [] → (calculate_statistics text summary).compressionRatio = 0) ∧
    (text ≠ [] →
      (calculate_statistics text summary).compressionRatio =
        (summary.length : ℚ) / (text.length : ℚ)) ∧
    (pySplit text = [] → (calculate_statistics text summary).average_word_length = 0) ∧
    (pySplit text ≠ [] →
      (calculate_statistics text summary).average_word_length =
        (((pySplit text).map List.length).sum : ℚ) / ((pySplit text).length : ℚ)) := by
  refine ⟨?_, ?_, ?_, ?_⟩ <;> intro h <;> simp [calculate_statistics, h]

/-- Witness for C8 at concrete inputs: text `"ab"` with summary `"a"` has
compression ratio 1/2 and average word length 2; empty text has ratio 0;
whitespace-only text has average word length 0. -/
theorem calculate_statistics_guarded_divisions_witness :
    (calculate_statistics (chars ("ab")) (chars ("a"))).compressionRatio = 1/2 ∧
    (calculate_statistics [] (chars ("a"))).compressionRatio = 0 ∧
    (calculate_statistics (chars ("ab")) (chars ("a"))).average_word_length = 2 ∧
    (calculate_statistics (chars (" ")) (chars ("a"))).average_word_length = 0 := by
  refine ⟨?_, ?_, ?_, ?_⟩
  · rw [(calculate_statistics_guarded_divisions (chars ("ab")) (chars ("a"))).2.1 (by decide)]
    norm_num [show (chars ("a")).length = 1 from rfl, show (chars ("ab")).length = 2 from rfl]
  · exact (calculate_statistics_guarded_divisions [] (chars ("a"))).1 rfl
  · rw [(calculate_statistics_guarded_divisions (chars ("ab")) (chars ("a"))).2.2.2 (by decide)]
    norm_num [show ((pySplit (chars ("ab"))).map List.length).sum = 2 from rfl,
      show (pySplit (chars ("ab"))).length = 1 from rfl]
  · exact (calculate_statistics_guarded_divisions (chars (" ")) (chars ("a"))).2.2.1 (by decide)

/-- C10: splitting on `'.'` always yields at least one segment, so the
sentence count is at least 1 for every input (also in the inline `api.py`
computation), the empty-sentence-list guard is unreachable, and the empty
text gets `sentence_count == 1` with `average_sentence_length == 0`. -/
theorem sentence_count_at_least_one (text summary : Str) :
    1 ≤ (calculate_statistics text summary).sentence_count ∧
    pySplitChar '.' text ≠ [] ∧
    1 ≤ api_sentence_count text ∧
    (calculate_statistics [] summary).sentence_count = 1 ∧
    (calculate_statistics [] summary).average_sentence_length = 0 := by
  have hne : pySplitChar '.' text ≠ [] := pySplitCharAux_ne_nil '.' text []
  refine ⟨?_, hne, ?_, rfl, ?_⟩
  · exact List.length_pos.mpr hne
  · exact List.length_pos.mpr hne
  · simp [calculate_statistics, pySplitChar, pySplitCharAux, pySplit, pySplitAux]

/-- C9: with empty RawText and no font-span information (absent path or
empty sequence), `extract_authors` returns exactly the sentinel
`"Authors not found"`, whatever the optional title argument is. -/
theorem extract_authors_empty_text_sentinel (title : Option Str) :
    extract_authors [] title none = chars ("Authors not found") ∧
    extract_authors [] title (some []) = chars ("Authors not found") := by
  cases title with
  | none => exact ⟨rfl, rfl⟩
  | some t =>
    have h1 : authStrat1 [] t = none := rfl
    have h2 : authStrat2 [] t = none := rfl
    constructor
    · simp only [extract_authors, h2, ite_self]
      rfl
    · simp only [extract_authors, h1, h2, ite_self]
      rfl

/-- C1 (counterexample): on the spec's scenario text the line-based
strategy does NOT return only the first line — the author line is also
collected, because the first title line is short and does not end in a
period, which suppresses the author heuristic. -/
theorem c1_scenario_counterexample :
    improved_extract_title c1Text none (fun _ => none) =
      chars ("Deep Learning for X Alice Smith, Bob Jones") ∧
    improved_extract_title c1Text none (fun _ => none) ≠ chars ("Deep Learning for X") := by
  exact ⟨by decide, by decide⟩

/-- C1 (amended claim): on the scenario RawText the line-based strategy
collects both the first line and the author line (the previously collected
line `"Deep Learning for X"` is shorter than 50 characters and does not
end in `.`, so the author heuristic is suppressed), the `Abstract` line
stops further inclusion, and the returned title is the two lines joined
with a space — for every behaviour of the keyword collaborator. -/
theorem c1_scenario_amended (kb : Str → Option Str) :
    lineTitleLines c1Text =
      [chars ("Deep Learning for X"), chars ("Alice Smith, Bob Jones")] ∧
    improved_extract_title c1Text none kb =
      chars ("Deep Learning for X Alice Smith, Bob Jones") :=
  ⟨by decide, rfl⟩

/-- C3 (counterexample): the joined title line `"Short one"` has length
9 ≤ 10, yet the engine returns it instead of falling through to the
keyword-fallback strategy. -/
theorem c3_short_join_counterexample :
    improved_extract_title c3Text none (fun _ => some (chars ("keyword fallback phrase"))) =
      chars ("Short one") ∧
    (chars ("Short one")).length ≤ 10 ∧
    improved_extract_title c3Text none (fun _ => some (chars ("keyword fallback phrase"))) ≠
      chars ("keyword fallback phrase") := by
  exact ⟨by decide, by decide, by decide⟩

/-- C3 (amended claim): whenever the line-based strategy collects at least
one title line, `improved_extract_title` returns the collected lines
joined with spaces unconditionally — no cleaning and no length-10
threshold is applied, and the keyword fallback is not consulted. -/
theorem line_strategy_join_returned_unconditionally (text : Str) (kb : Str → Option Str)
    (h : lineTitleLines text ≠ []) :
    improved_extract_title text none kb = joinSpaces (lineTitleLines text) := by
  unfold improved_extract_title
  rw [if_pos h]
  rfl

/-- Witness for the amended C3 at the concrete scenario input. -/
theorem line_strategy_join_returned_unconditionally_witness :
    lineTitleLines c3Text ≠ [] ∧
    improved_extract_title c3Text none (fun _ => none) = joinSpaces (lineTitleLines c3Text) :=
  ⟨by decide, line_strategy_join_returned_unconditionally c3Text (fun _ => none) (by decide)⟩

/-- C4 (counterexample): strategies 1-3 yield nothing on this input and a
content line of length 40 exists (the fourth), yet the engine returns
`"Unknown Title"` because the final fallback only inspects the first three
content lines. -/
theorem c4_fallback_scenario_counterexample :
    improved_extract_title c4Text none (fun _ => none) = chars ("Unknown Title") ∧
    c4LongLine ∈ contentLines c4Text ∧
    15 < c4LongLine.length ∧ c4LongLine.length < 200 ∧
    chars ("Unknown Title") ≠ c4LongLine := by
  exact ⟨by decide, by decide, by decide, by decide, by decide⟩

/-- C4 (amended claim): when the line-based strategy collects nothing and
the keyword collaborator returns nothing, the engine returns the final
fallback: the first of the FIRST THREE filtered content lines whose length
is strictly between 15 and 200 (returned as-is), and `"Unknown Title"`
when none of those three qualifies. -/
theorem final_fallback_first_three_content_lines (text : Str) (kb : Str → Option Str)
    (h1 : lineTitleLines text = [])
    (h2 : kb (joinSpaces ((contentLines text).take 15)) = none) :
    improved_extract_title text none kb = finalFallback (contentLines text) := by
  unfold improved_extract_title
  rw [if_neg (fun hc => hc h1), h2]
  rfl

/-- Witness for the amended C4 at the concrete scenario input. -/
theorem final_fallback_first_three_content_lines_witness :
    lineTitleLines c4Text = [] ∧
    improved_extract_title c4Text none (fun _ => none) = finalFallback (contentLines c4Text) :=
  ⟨by decide, final_fallback_first_three_content_lines c4Text (fun _ => none) (by decide) rfl⟩

theorem authStrat2Loop_inv (tw3 : List Str) :
    ∀ (ls : List Str) (found : Bool) (acc : List Str),
      (∀ c ∈ acc, absIntroKw c = false ∧ authIncl2 c = true) →
      ∀ c ∈ authStrat2Loop tw3 ls found acc,
        absIntroKw c = false ∧ authIncl2 c = true := by
  intro ls
  induction ls with
  | nil => intro found acc hacc c hc; exact hacc c hc
  | cons l rest ih =>
    intro found acc hacc c hc
    rw [authStrat2Loop] at hc
    split at hc
    · exact ih found acc hacc c hc
    · split at hc
      · exact ih _ acc hacc c hc
      · split at hc
        next habs => exact hacc c hc
        next habs =>
          split at hc
          next hincl =>
            have hext : ∀ u ∈ acc ++ [pyStrip l], absIntroKw u = false ∧ authIncl2 u = true := by
              intro u hu
              rcases List.mem_append.mp hu with h | h
              · exact hacc u h
              · rw [List.mem_singleton.mp h]
                exact ⟨by simpa using habs, hincl⟩
            split at hc
            · exact hext c hc
            · split at hc
              · exact hext c hc
              · exact ih found _ hext c hc
          next hincl =>
            split at hc
            · exact hacc c hc
            · split at hc
              · exact hacc c hc
              · exact ih found acc hacc c hc

/-- C5 (counterexample): with the two-line RawText `c5Text` and title
`"Some Title Here"`, the line-based author strategy collects the
103-character comma line and `extract_authors` returns it, so a line
longer than 100 characters does appear in the returned author string. -/
theorem long_line_in_author_candidates_counterexample :
    extract_authors c5Text (some c5Title) none = c5Line ∧ c5Line.length > 100 := by
  exact ⟨by decide, by decide⟩

/-- C5 (amended claim): in the line-based author strategy the scan stops
without including the current line only on an `abstract|introduction|keywords`
match — hence no collected candidate matches that pattern and every
collected candidate passes the inclusion test (comma, `" and "`, or at
most 6 words with length strictly between 3 and 100); on an institutional
keyword or a line longer than 100 characters the scan stops AFTER
including the line when it passes the inclusion test, so candidates longer
than 100 characters containing a comma or `" and "` can occur. -/
theorem author_strategy2_collected_candidates (tw3 ls : List Str) (found : Bool) (c : Str)
    (hc : c ∈ authStrat2Loop tw3 ls found []) :
    absIntroKw c = false ∧ authIncl2 c = true :=
  authStrat2Loop_inv tw3 ls found [] (by intro u hu; cases hu) c hc

/-- Witness for the amended C5: the 103-character comma line is a
collected candidate on the scenario input and satisfies both properties. -/
theorem author_strategy2_collected_candidates_witness :
    c5Line ∈ authStrat2Loop (titleW3 c5Title) (pySplitChar '\n' (pyStrip c5Text)) false [] ∧
    absIntroKw c5Line = false ∧ authIncl2 c5Line = true :=
  ⟨by decide,
    author_strategy2_collected_candidates (titleW3 c5Title)
      (pySplitChar '\n' (pyStrip c5Text)) false c5Line (by decide)⟩

theorem collectFontTitle_inv (mf th : ℚ) :
    ∀ (l : List FontSpan) (acc : List Str),
      (∀ t ∈ acc, reCitOrLetter t = false) →
      ∀ t ∈ collectFontTitle mf th l acc, reCitOrLetter t = false := by
  intro l
  induction l with
  | nil => intro acc hacc t ht; exact hacc t ht
  | cons sp rest ih =>
    intro acc hacc t ht
    rw [collectFontTitle] at ht
    split at ht
    · exact ih acc hacc t ht
    · split at ht
      next hcit => exact ih acc hacc t ht
      next hcit =>
        split at ht
        · split at ht
          · exact ih acc hacc t ht
          · refine ih _ ?_ t ht
            intro u hu
            rcases List.mem_append.mp hu with h | h
            · exact hacc u h
            · rw [List.mem_singleton.mp h]
              simpa using hcit
        · split at ht
          · exact hacc t ht
          · exact ih acc hacc t ht

/-- C7: the font-based title strategy never includes a span whose text
matches `^\[\d+\]$` or is a bare single letter, regardless of the span's
font size: every collected title element fails both patterns. -/
theorem font_strategy_never_includes_citation_or_letter (tw : List FontSpan) (t : Str)
    (ht : t ∈ fontTitleElements tw) :
    exactCitation t = false ∧ exactLetter t = false := by
  have h : reCitOrLetter t = false := by
    unfold fontTitleElements at ht
    exact collectFontTitle_inv _ _ _ [] (by intro u hu; cases hu) t ht
  simp only [reCitOrLetter, Bool.or_eq_false_iff] at h
  exact ⟨h.1.1.1, h.1.2⟩

/-- Witness for C7: a single large-font span is collected by the
font-based strategy and its text fails both skip patterns. -/
theorem font_strategy_never_includes_citation_or_letter_witness :
    chars ("Paper Title Here") ∈ fontTitleElements [⟨chars ("Paper Title Here"), 5⟩] ∧
    exactCitation (chars ("Paper Title Here")) = false ∧
    exactLetter (chars ("Paper Title Here")) = false := by
  have hmem : chars ("Paper Title Here") ∈ fontTitleElements [⟨chars ("Paper Title Here"), 5⟩] := by
    have h1 : fontTitleElements [⟨chars ("Paper Title Here"), 5⟩] =
        collectFontTitle 5 (5 * (4/5)) [⟨chars ("Paper Title Here"), 5⟩] [] := rfl
    rw [h1, collectFontTitle]
    rw [if_neg (by simp), if_neg (by decide), if_pos (by norm_num), if_neg (by decide)]
    exact List.mem_singleton.mpr rfl
  exact ⟨hmem,
    font_strategy_never_includes_citation_or_letter [⟨chars ("Paper Title Here"), 5⟩]
      (chars ("Paper Title Here")) hmem⟩
